import Mathlib

/-!
Verification development for the pixi-game-engine physics/collision core.

The definitions below are a shallow embedding of the JavaScript source of
the most complete engine variant (the fixed-accumulator, corner-handling
one): classes `Vector2`, `AABB`, `Physbody`/`DynamicBody`, `Physics` and
`CollisionHandler`.  Coordinates are modelled as rationals (`ℚ`); the IEEE
special values that the JavaScript number type adds on top (signed
infinities and NaN, produced by division by zero and propagated through
comparisons) are modelled explicitly by the type `ExtQ` wherever the source
can actually produce or consume them (`Vector2.slope` and the NaN-poisoned
overlap test).
-/

namespace Engine

/-- Embeds class `Vector2`: a plain pair of numeric coordinates. -/
structure Vector2 where
  x : ℚ
  y : ℚ
deriving DecidableEq

/-- JavaScript numbers as seen by `Vector2.slope` and the overlap test:
a finite value, a signed infinity, or NaN. -/
inductive ExtQ where
  | fin (q : ℚ)
  | posInf
  | negInf
  | nan
deriving DecidableEq

namespace ExtQ

/-- JavaScript `<` on numbers: NaN compares false against everything,
`-Infinity < finite < Infinity`. -/
def lt : ExtQ → ExtQ → Bool
  | fin a, fin b => decide (a < b)
  | fin _, posInf => true
  | negInf, fin _ => true
  | negInf, posInf => true
  | _, _ => false

/-- JavaScript `>` on numbers: `a > b` holds exactly when `b < a`
(in particular it is false whenever either side is NaN). -/
def gt (a b : ExtQ) : Bool := lt b a

/-- JavaScript `+` on numbers restricted to the values `ExtQ` models:
NaN is absorbing, infinities of opposite sign cancel to NaN. -/
def add : ExtQ → ExtQ → ExtQ
  | nan, _ => nan
  | _, nan => nan
  | posInf, negInf => nan
  | negInf, posInf => nan
  | posInf, _ => posInf
  | _, posInf => posInf
  | negInf, _ => negInf
  | _, negInf => negInf
  | fin a, fin b => fin (a + b)

end ExtQ

/-- JavaScript division of two finite numbers: a finite quotient when the
divisor is nonzero, otherwise a signed infinity (or NaN for `0 / 0`),
exactly as IEEE-754 prescribes for a positive-zero divisor. -/
def jsDivQ (a b : ℚ) : ExtQ :=
  if b ≠ 0 then .fin (a / b)
  else if a > 0 then .posInf
  else if a < 0 then .negInf
  else .nan

/-- Embeds `Vector2.slope(vector1, vector2)`: if `vector2.x > vector1.x`
return `(vector2.y - vector1.y) / (vector2.x - vector1.x)`, otherwise
`(vector1.y - vector2.y) / (vector1.x - vector2.x)`. -/
def Vector2.slope (vector1 vector2 : Vector2) : ExtQ :=
  if vector2.x > vector1.x then
    jsDivQ (vector2.y - vector1.y) (vector2.x - vector1.x)
  else
    jsDivQ (vector1.y - vector2.y) (vector1.x - vector2.x)

/-- Embeds class `AABB`.  The source stores `min`, `max`, `width`, `height`,
with `width`/`height` computed from `max - min` at construction; after
construction only `min` ever moves (the `x`/`y` setters), every getter used
by the engine reads `min`, `width`, `height`, and the stale `max` is only
read by `clone` at construction time, so the embedding keeps
`min`/`width`/`height`. -/
structure AABB where
  min : Vector2
  width : ℚ
  height : ℚ
deriving DecidableEq

/-- Embeds the `AABB` constructor `new AABB(min, max)`. -/
def mkAABB (min max : Vector2) : AABB :=
  ⟨min, max.x - min.x, max.y - min.y⟩

namespace AABB

/-- Getter `left`. -/
def left (b : AABB) : ℚ := b.min.x

/-- Getter `right = min.x + width`. -/
def right (b : AABB) : ℚ := b.min.x + b.width

/-- Getter `top`. -/
def top (b : AABB) : ℚ := b.min.y

/-- Getter `bottom = min.y + height`. -/
def bottom (b : AABB) : ℚ := b.min.y + b.height

/-- Getter `mid`: the midpoint. -/
def mid (b : AABB) : Vector2 :=
  ⟨b.min.x + b.width / 2, b.min.y + b.height / 2⟩

/-- The `x` setter: moves `min.x` (width and height are untouched). -/
def withX (b : AABB) (x : ℚ) : AABB := { b with min := { b.min with x := x } }

/-- The `y` setter: moves `min.y`. -/
def withY (b : AABB) (y : ℚ) : AABB := { b with min := { b.min with y := y } }

end AABB

/-- Embeds class `DynamicBody` (the dynamic `Physbody` variant): current
AABB, velocity, acceleration, interpolation alpha, grounded flag, and the
pre-step snapshot `_last`. -/
structure DynamicBody where
  body : AABB
  vx : ℚ
  vy : ℚ
  ax : ℚ
  ay : ℚ
  alpha : ℚ
  grounded : Bool
  last : AABB
deriving DecidableEq

/-- Embeds a static `Physbody`: just the AABB footprint. -/
structure StaticBody where
  body : AABB
deriving DecidableEq

/-- Embeds the `DynamicBody` constructor: velocity/acceleration/alpha zero,
not grounded, `_last` a clone of the freshly built body. -/
def mkDynamicBody (pos : Vector2) (width height : ℚ) : DynamicBody :=
  let b := mkAABB pos ⟨pos.x + width, pos.y + height⟩
  ⟨b, 0, 0, 0, 0, 0, false, b⟩

/-- Embeds `DynamicBody.updateCache`: `_last.x = x; _last.y = y`
(only `min` of the snapshot moves; its width/height stay). -/
def DynamicBody.updateCache (b : DynamicBody) : DynamicBody :=
  { b with last := { b.last with min := b.body.min } }

/-- Embeds `CollisionHandler.isColliding(body1, body2)`: false when one of
the four separating-axis comparisons holds, true otherwise (touching edges
count as colliding). -/
def isColliding (body1 body2 : AABB) : Bool :=
  if body1.right < body2.left
      ∨ body1.left > body2.right
      ∨ body1.top > body2.bottom
      ∨ body1.bottom < body2.top then
    false
  else
    true

/-- Embeds `CollisionHandler.calculateCollisionManifold(body1, body2)`:
the per-axis overlap magnitudes. -/
def calculateCollisionManifold (body1 body2 : AABB) : Vector2 :=
  let dMidX := |body2.mid.x - body1.mid.x|
  let dMidY := |body2.mid.y - body1.mid.y|
  ⟨|dMidX - (body1.width + body2.width) / 2|,
   |dMidY - (body1.height + body2.height) / 2|⟩

/-- Embeds `CollisionHandler.resolveCollision(dynamicBody, staticBody)`:
the four cardinal cases decided from the pre-step snapshot `_last`,
falling through to the corner-quadrant slope comparison.  Each branch moves
exactly one coordinate of the dynamic body's `min` (the `x`/`y` setters)
and possibly zeroes one velocity component or sets `grounded`. -/
def resolveCollision (d : DynamicBody) (s : StaticBody) : DynamicBody :=
  let lastState := d.last
  -- lastInWidth / lastInHeight booleans of the source
  let overlap := calculateCollisionManifold d.body s.body
  if (lastState.right > s.body.left ∧ lastState.left < s.body.right) ∧
      lastState.bottom ≤ s.body.top then
    -- top collision
    { d with body := d.body.withY (d.body.min.y - overlap.y), vy := 0 }
  else if (lastState.right > s.body.left ∧ lastState.left < s.body.right) ∧
      lastState.top ≥ s.body.bottom then
    -- bottom collision
    { d with body := d.body.withY (d.body.min.y + overlap.y), vy := 0 }
  else if (lastState.bottom > s.body.top ∧ lastState.top < s.body.bottom) ∧
      lastState.right ≤ s.body.left then
    -- left collision
    { d with body := d.body.withX (d.body.min.x - overlap.x), vx := 0 }
  else if (lastState.bottom > s.body.top ∧ lastState.top < s.body.bottom) ∧
      lastState.left ≥ s.body.right then
    -- right collision
    { d with body := d.body.withX (d.body.min.x + overlap.x), vx := 0 }
  else
    -- corner slope cases
    let staticBodyMid := s.body.mid
    let dynamicBodyChangeSlope := Vector2.slope d.body.mid lastState.mid
    if lastState.mid.y < staticBodyMid.y then
      if lastState.mid.x < staticBodyMid.x then
        let lastStateBottomRight : Vector2 := ⟨lastState.right, lastState.bottom⟩
        let staticBodyTopLeft : Vector2 := ⟨s.body.left, s.body.top⟩
        let lastStateToCornerSlope := Vector2.slope lastStateBottomRight staticBodyTopLeft
        if dynamicBodyChangeSlope.gt lastStateToCornerSlope then
          { d with body := d.body.withY (d.body.min.y - overlap.y), grounded := true }
        else
          { d with body := d.body.withX (d.body.min.x - overlap.x) }
      else if lastState.mid.x > staticBodyMid.x then
        let lastStateBottomLeft : Vector2 := ⟨lastState.left, lastState.bottom⟩
        let staticBodyTopRight : Vector2 := ⟨s.body.right, s.body.top⟩
        let lastStateToCornerSlope := Vector2.slope lastStateBottomLeft staticBodyTopRight
        if dynamicBodyChangeSlope.gt lastStateToCornerSlope then
          { d with body := d.body.withY (d.body.min.y - overlap.y), grounded := true }
        else
          { d with body := d.body.withX (d.body.min.x + overlap.x) }
      else
        d
    else if lastState.mid.y > staticBodyMid.y then
      if lastState.mid.x < staticBodyMid.x then
        let lastStateTopRight : Vector2 := ⟨lastState.right, lastState.top⟩
        let staticBodyBottomLeft : Vector2 := ⟨s.body.left, s.body.bottom⟩
        let lastStateToCornerSlope := Vector2.slope lastStateTopRight staticBodyBottomLeft
        if dynamicBodyChangeSlope.lt lastStateToCornerSlope then
          { d with body := d.body.withY (d.body.min.y + overlap.y) }
        else
          { d with body := d.body.withX (d.body.min.x - overlap.x) }
      else if lastState.mid.x > staticBodyMid.x then
        let lastStateTopLeft : Vector2 := ⟨lastState.left, lastState.top⟩
        let staticBodyBottomRight : Vector2 := ⟨s.body.right, s.body.bottom⟩
        let lastStateToCornerSlope := Vector2.slope lastStateTopLeft staticBodyBottomRight
        if dynamicBodyChangeSlope.lt lastStateToCornerSlope then
          { d with body := d.body.withY (d.body.min.y + overlap.y) }
        else
          { d with body := d.body.withX (d.body.min.x + overlap.x) }
      else
        d
    else
      d

/-- A contact recorded by `checkAllCollisions`: the source pushes object
references `{dynamicBody, staticBody, overlapArea}`; the embedding records
the bodies by their index in the respective live-body list. -/
structure Contact where
  dIdx : Nat
  sIdx : Nat
  overlapArea : ℚ
deriving DecidableEq

/-- The comparator `(a, b) => a.overlapArea - b.overlapArea` passed to
`Array.prototype.sort`, as the ordering it induces: `a` may stay before `b`
exactly when the comparator is non-positive. -/
def contactLE (a b : Contact) : Bool := decide (a.overlapArea ≤ b.overlapArea)

/-- The discovery pass of `CollisionHandler.checkAllCollisions`: iterate
dynamic bodies (outer) then static bodies (inner) and record a contact with
its overlap area for every colliding pair. -/
def discoverContacts (dyns : List DynamicBody) (stats : List StaticBody) : List Contact :=
  dyns.enum.flatMap fun di =>
    stats.enum.filterMap fun sj =>
      if isColliding di.2.body sj.2.body then
        let overlap := calculateCollisionManifold di.2.body sj.2.body
        some ⟨di.1, sj.1, overlap.x * overlap.y⟩
      else
        none

/-- Embeds `CollisionHandler.checkAllCollisions`: discovery followed by the
comparator sort (`Array.prototype.sort` is stable, modelled by a stable
merge sort). -/
def checkAllCollisions (dyns : List DynamicBody) (stats : List StaticBody) : List Contact :=
  (discoverContacts dyns stats).mergeSort contactLE

/-- Embeds `CollisionHandler.resolveAllCollisions`: fold over the contact
list in order, resolving each contact against the current state of its
dynamic body (the source mutates through object references; the embedding
updates the indexed list element). -/
def resolveAllCollisions (contacts : List Contact) (dyns : List DynamicBody)
    (stats : List StaticBody) : List DynamicBody :=
  contacts.foldl
    (fun ds c =>
      match ds.get? c.dIdx, stats.get? c.sIdx with
      | some d, some s => ds.set c.dIdx (resolveCollision d s)
      | _, _ => ds)
    dyns

/-- One iteration of the integration loop body of `Physics.step` for one
body: `updateCache`, then the symplectic Euler update (velocity first, then
position). -/
def integrateBody (dt : ℚ) (b : DynamicBody) : DynamicBody :=
  let b1 := b.updateCache
  let vx := b1.vx + b1.ax * dt
  let vy := b1.vy + b1.ay * dt
  { b1 with
    vx := vx, vy := vy,
    body := { b1.body with
              min := ⟨b1.body.min.x + vx * dt, b1.body.min.y + vy * dt⟩ } }

/-- One whole-fixed-step iteration of the `while` loop in `Physics.step`:
integrate every dynamic body, then `checkAllCollisions`, then
`resolveAllCollisions`. -/
def substep (dt : ℚ) (stats : List StaticBody) (dyns : List DynamicBody) :
    List DynamicBody :=
  let integrated := dyns.map (integrateBody dt)
  resolveAllCollisions (checkAllCollisions integrated stats) integrated stats

/-- The per-body epilogue of `Physics.step` (after the while loop):
`grounded` becomes whether `vy == 0`, and the interpolation alpha is
stored. -/
def postLoopUpdate (alpha : ℚ) (b : DynamicBody) : DynamicBody :=
  { b with grounded := decide (b.vy = 0), alpha := alpha }

/-- `Physics.MAX_PHYS_FRAME_TIME` (seconds). -/
def MAX_PHYS_FRAME_TIME : ℚ := 1 / 4

/-- The mutable module state of `Physics` that the claims touch: the two
live-body arrays and the fixed-timestep accumulator. -/
structure PhysicsState where
  dynamicBodies : List DynamicBody
  staticBodies : List StaticBody
  accumulator : ℚ
deriving DecidableEq

/-- Module initialization `Physics.accumulator = 0`. -/
def initialAccumulator : ℚ := 0

/-- Embeds `Physics.purgeEntities`: truncate both live-body arrays
(`length = 0`); nothing else is touched. -/
def purgeEntities (st : PhysicsState) : PhysicsState :=
  { st with dynamicBodies := [], staticBodies := [] }

/-- The physics-relevant effect of `Renderer.loadScene` tearing down a
previously loaded scene: it calls `Physics.purgeEntities` (camera and
ticker bookkeeping are presentation concerns outside this model). -/
def loadSceneTeardown (st : PhysicsState) : PhysicsState :=
  purgeEntities st

/-- The `while (accumulator >= dt)` loop of `Physics.step`: run `substep`
and subtract `dt` until the accumulator drops below `dt`.  Terminates for
`0 < dt` (the JavaScript loop would not terminate for `dt ≤ 0`, which the
caller never passes). -/
def stepLoop (dt : ℚ) (hdt : 0 < dt) (stats : List StaticBody) (acc : ℚ)
    (dyns : List DynamicBody) : ℚ × List DynamicBody :=
  if h : acc ≥ dt then
    stepLoop dt hdt stats (acc - dt) (substep dt stats dyns)
  else
    (acc, dyns)
termination_by (⌈acc / dt⌉).toNat
decreasing_by
  have h1 : (1 : ℚ) ≤ acc / dt := (one_le_div hdt).2 h
  have h2 : (1 : ℤ) ≤ ⌈acc / dt⌉ := by
    have := Int.ceil_le_ceil (α := ℚ) h1
    simpa using this
  have h3 : (acc - dt) / dt = acc / dt - 1 := by
    field_simp
  rw [h3, Int.ceil_sub_one]
  omega

/-- Embeds `Physics.step(dt)` with the elapsed real frame time made an
explicit input: clamp the frame time, add it to the accumulator, drain the
accumulator in whole fixed steps, then write `grounded := (vy == 0)` and
the interpolation alpha onto every dynamic body. -/
def Physics.step (dt : ℚ) (hdt : 0 < dt) (elapsed : ℚ) (st : PhysicsState) :
    PhysicsState :=
  let frameTime := if elapsed > MAX_PHYS_FRAME_TIME then MAX_PHYS_FRAME_TIME else elapsed
  let acc := st.accumulator + frameTime
  let r := stepLoop dt hdt st.staticBodies acc st.dynamicBodies
  let alpha := r.1 / dt
  { dynamicBodies := r.2.map (postLoopUpdate alpha),
    staticBodies := st.staticBodies,
    accumulator := r.1 }

/-- A 2D vector over full JavaScript numbers, for the NaN-degeneracy
analysis of the overlap test. -/
structure JsVector2 where
  x : ExtQ
  y : ExtQ
deriving DecidableEq

/-- An `AABB` whose stored fields may hold IEEE special values (a NaN
position propagates into the derived edges through `+`). -/
structure JsAABB where
  min : JsVector2
  width : ExtQ
  height : ExtQ
deriving DecidableEq

namespace JsAABB

/-- Getter `left`. -/
def left (b : JsAABB) : ExtQ := b.min.x

/-- Getter `right = min.x + width` under JavaScript addition. -/
def right (b : JsAABB) : ExtQ := b.min.x.add b.width

/-- Getter `top`. -/
def top (b : JsAABB) : ExtQ := b.min.y

/-- Getter `bottom = min.y + height` under JavaScript addition. -/
def bottom (b : JsAABB) : ExtQ := b.min.y.add b.height

end JsAABB

/-- Embeds `CollisionHandler.isColliding` again, this time over full
JavaScript numbers so that NaN coordinates behave as in the source
(every comparison against NaN is false). -/
def isCollidingJs (body1 body2 : JsAABB) : Bool :=
  if body1.right.lt body2.left
      || body1.left.gt body2.right
      || body1.top.gt body2.bottom
      || body1.bottom.lt body2.top then
    false
  else
    true

/-- Modelled from the spec: the engine variant with
`Physbody.TYPE.SYMBOLIC` that `game.js` instantiates is not under `src/`
(only its callers are), so Symbolic bodies are modelled from spec sections
3 and 4.3: a non-solid footprint carrying an ordered list of trigger
callbacks (represented by opaque identifiers). -/
structure SymbolicBody where
  body : AABB
  triggers : List Nat
deriving DecidableEq

/-- Modelled from the spec: a dynamic body together with its own trigger
callbacks (spec section 4.3 concatenates the dynamic body's callbacks with
the symbolic body's). -/
structure TriggeredDynamic where
  dyn : DynamicBody
  triggers : List Nat
deriving DecidableEq

/-- Modelled from the spec: the world registry of the Symbolic-capable
engine variant — three ordered live-body collections keyed by
classification. -/
structure SpecWorld where
  dynamicBodies : List TriggeredDynamic
  staticBodies : List StaticBody
  symbolicBodies : List SymbolicBody
deriving DecidableEq

/-- Modelled from the spec: a freshly created body with its classification
tag (Dynamic / Static / Symbolic). -/
inductive NewBody where
  | dyn (d : TriggeredDynamic)
  | stat (s : StaticBody)
  | sym (s : SymbolicBody)

/-- Modelled from the spec: registration appends the created body to the
live-body collection matching its classification. -/
def registerBody (w : SpecWorld) : NewBody → SpecWorld
  | .dyn d => { w with dynamicBodies := w.dynamicBodies ++ [d] }
  | .stat s => { w with staticBodies := w.staticBodies ++ [s] }
  | .sym s => { w with symbolicBodies := w.symbolicBodies ++ [s] }

/-- Modelled from the spec: `detect` of the Symbolic-capable variant —
contacts from dynamic-vs-static pairs exactly as `checkAllCollisions`
does, plus, for every overlapping dynamic-vs-symbolic pair, the dynamic
body's callbacks followed by the symbolic body's callbacks.  No response
is applied here. -/
def specDetect (w : SpecWorld) : List Contact × List Nat :=
  (checkAllCollisions (w.dynamicBodies.map TriggeredDynamic.dyn) w.staticBodies,
   w.dynamicBodies.flatMap fun dc =>
     w.symbolicBodies.flatMap fun s =>
       if isColliding dc.dyn.body s.body then dc.triggers ++ s.triggers else [])

/-- Modelled from the spec: the detect-then-resolve cycle of the
Symbolic-capable variant acting on the dynamic bodies. -/
def specDetectResolve (w : SpecWorld) : List DynamicBody :=
  resolveAllCollisions (specDetect w).1 (w.dynamicBodies.map TriggeredDynamic.dyn)
    w.staticBodies

/-! Concrete bodies used to instantiate the claims.  Dynamic-body fields
are in declaration order: current AABB, vx, vy, ax, ay, alpha, grounded,
pre-step snapshot. -/

/-- A 10x10 body that fell from `y = 35` to `y = 45`, overlapping the
floor below by 5. -/
def c1Dyn : DynamicBody := ⟨⟨⟨0, 45⟩, 10, 10⟩, 0, 10, 0, 0, 0, false, ⟨⟨0, 35⟩, 10, 10⟩⟩

/-- A wide floor with top edge at `y = 50`. -/
def c1Stat : StaticBody := ⟨⟨⟨-100, 50⟩, 200, 10⟩⟩

/-- An 8x8 body that fell from `y = 30` to `y = 46`, overlapping the
floor below by 4. -/
def c2Dyn : DynamicBody := ⟨⟨⟨3, 46⟩, 8, 8⟩, 1, 12, 0, 0, 0, false, ⟨⟨3, 30⟩, 8, 8⟩⟩

/-- A wide floor with top edge at `y = 50`. -/
def c2Stat : StaticBody := ⟨⟨⟨0, 50⟩, 200, 10⟩⟩

/-- A body marked grounded from a prior step, overlapping nothing. -/
def c3Dyn : DynamicBody := ⟨⟨⟨0, 0⟩, 10, 10⟩, 0, 0, 0, 0, 0, true, ⟨⟨0, 0⟩, 10, 10⟩⟩

/-- A grounded body far away from the static body `c3Stat`. -/
def c3wDyn : DynamicBody := ⟨⟨⟨0, 0⟩, 10, 10⟩, 0, 0, 0, 0, 0, true, ⟨⟨0, 0⟩, 10, 10⟩⟩

/-- A static body far away from `c3wDyn`. -/
def c3Stat : StaticBody := ⟨⟨⟨100, 100⟩, 10, 10⟩⟩

/-- One dynamic body at the origin for the contact-ordering example. -/
def c4Dyn : DynamicBody := ⟨⟨⟨0, 0⟩, 10, 10⟩, 0, 0, 0, 0, 0, false, ⟨⟨0, 0⟩, 10, 10⟩⟩

/-- Static body with overlap area 10 against `c4Dyn`. -/
def c4Stat1 : StaticBody := ⟨⟨⟨5, 8⟩, 10, 10⟩⟩

/-- Static body with overlap area 50 against `c4Dyn`. -/
def c4Stat2 : StaticBody := ⟨⟨⟨0, 5⟩, 10, 10⟩⟩

/-- Static body with overlap area 5 against `c4Dyn`. -/
def c4Stat3 : StaticBody := ⟨⟨⟨5, 9⟩, 10, 10⟩⟩

/-- Tie-break example: overlap area 10 against `c4Dyn`, discovered first. -/
def c4TieStatA : StaticBody := ⟨⟨⟨5, 8⟩, 10, 10⟩⟩

/-- Tie-break example: overlap area 10 against `c4Dyn`, discovered second. -/
def c4TieStatB : StaticBody := ⟨⟨⟨8, 5⟩, 10, 10⟩⟩

/-- A body whose snapshot coincides with its current AABB and already
overlaps the static body: none of the four cardinal guards holds, and the
snapshot midpoint is vertically colinear with the static midpoint. -/
def c5Dyn : DynamicBody := ⟨⟨⟨0, 0⟩, 10, 10⟩, 0, 0, 0, 0, 0, false, ⟨⟨0, 0⟩, 10, 10⟩⟩

/-- Static body horizontally offset from `c5Dyn` with the same vertical
midpoint. -/
def c5Stat : StaticBody := ⟨⟨⟨2, 0⟩, 10, 10⟩⟩

/-- A body approaching the top-left corner of `c5wStat` diagonally:
snapshot strictly above-left, current AABB overlapping the corner. -/
def c5wDyn : DynamicBody := ⟨⟨⟨-6, -4⟩, 10, 10⟩, 0, 0, 0, 0, 0, false, ⟨⟨-12, -12⟩, 10, 10⟩⟩

/-- The cornered static body for the corner-graze witness. -/
def c5wStat : StaticBody := ⟨⟨⟨0, 0⟩, 10, 10⟩⟩

/-- A freshly constructed dynamic body for the scheduler witness. -/
def c7Dyn : DynamicBody := mkDynamicBody ⟨0, 0⟩ 10 10

/-! Basic facts about the JavaScript-number model. -/

theorem ExtQ.lt_nan_eq_false (a : ExtQ) : a.lt .nan = false := by
  cases a <;> rfl

theorem ExtQ.nan_lt_eq_false (a : ExtQ) : ExtQ.lt .nan a = false := by
  cases a <;> rfl

theorem ExtQ.nan_add_eq_nan (a : ExtQ) : ExtQ.add .nan a = .nan := by
  cases a <;> rfl

end Engine

namespace Engine

/-- C8 counterexample: two vertically aligned distinct points.  The source
computes `(0 - 1) / 0 = -Infinity` for `slope((0,0), (0,1))` but
`(1 - 0) / 0 = +Infinity` for `slope((0,1), (0,0))`, so `slope` is not
symmetric on this pair, refuting the claim that `slope(a, b)` equals
`slope(b, a)` for every pair of vectors. -/
theorem c8_counterexample :
    Vector2.slope ⟨0, 0⟩ ⟨0, 1⟩ ≠ Vector2.slope ⟨0, 1⟩ ⟨0, 0⟩ := by
  have h1 : Vector2.slope ⟨0, 0⟩ ⟨0, 1⟩ = ExtQ.negInf := by
    norm_num [Vector2.slope, jsDivQ]
  have h2 : Vector2.slope ⟨0, 1⟩ ⟨0, 0⟩ = ExtQ.posInf := by
    norm_num [Vector2.slope, jsDivQ]
  rw [h1, h2]
  intro h
  cases h

/-- C8 (amended): when the two points differ in `x`, the branch selection
normalizes operand order so `slope(a, b) = slope(b, a)`; when the points
are vertically aligned (equal `x`) with distinct `y`, the result is a
signed infinity rather than an error, but its sign depends on argument
order, so the symmetry equation fails exactly there. -/
theorem c8_slope_order (a b : Vector2) :
    (a.x ≠ b.x → Vector2.slope a b = Vector2.slope b a) ∧
    (a.x = b.x → b.y < a.y →
      Vector2.slope a b = ExtQ.posInf ∧ Vector2.slope b a = ExtQ.negInf) := by
  constructor
  · intro hx
    rcases lt_or_gt_of_ne hx with h | h
    · simp only [Vector2.slope, gt_iff_lt]
      rw [if_pos h, if_neg (lt_asymm h)]
    · simp only [Vector2.slope, gt_iff_lt]
      rw [if_neg (lt_asymm h), if_pos h]
  · intro hx hy
    have hx0 : a.x - b.x = 0 := by rw [hx, sub_self]
    have hx0' : b.x - a.x = 0 := by rw [hx, sub_self]
    have hyp : 0 < a.y - b.y := sub_pos.2 hy
    have hyn : ¬(0 < b.y - a.y) := by linarith
    have hyn' : b.y - a.y < 0 := by linarith
    constructor
    · simp [Vector2.slope, jsDivQ, hx, hx0, hyp]
    · simp [Vector2.slope, jsDivQ, hx, hx0', hyn, hyn']

/-- C8 witness: the symmetric case at `(1,2)`, `(3,7)` and the vertically
aligned case at `(0,5)`, `(0,1)`. -/
theorem c8_witness :
    (Vector2.slope ⟨1, 2⟩ ⟨3, 7⟩ = Vector2.slope ⟨3, 7⟩ ⟨1, 2⟩) ∧
    (Vector2.slope ⟨0, 5⟩ ⟨0, 1⟩ = ExtQ.posInf ∧
      Vector2.slope ⟨0, 1⟩ ⟨0, 5⟩ = ExtQ.negInf) :=
  ⟨(c8_slope_order ⟨1, 2⟩ ⟨3, 7⟩).1 (by norm_num),
   (c8_slope_order ⟨0, 5⟩ ⟨0, 1⟩).2 rfl (by norm_num)⟩

/-- C9 counterexample: purging a world whose accumulator holds `1/2`
leaves the accumulator at `1/2`; `Physics.purgeEntities` only truncates
the two live-body arrays and never writes `Physics.accumulator`, refuting
the claim that the accumulator is reset to 0 on purge/reload. -/
theorem c9_counterexample :
    (purgeEntities
        { dynamicBodies := [], staticBodies := [], accumulator := 1 / 2 }).accumulator ≠ 0 := by
  norm_num [purgeEntities]

/-- C9 (amended): `purgeEntities` (also as invoked from the scene-teardown
path of `loadScene`) clears both live-body collections but leaves the
fixed-timestep accumulator at its prior value; the accumulator is 0 only
through its module-initialization value. -/
theorem c9_purge_keeps_accumulator (st : PhysicsState) :
    (purgeEntities st).dynamicBodies = [] ∧
    (purgeEntities st).staticBodies = [] ∧
    (purgeEntities st).accumulator = st.accumulator ∧
    (loadSceneTeardown st).accumulator = st.accumulator ∧
    initialAccumulator = 0 :=
  ⟨rfl, rfl, rfl, rfl, rfl⟩

/-- C10 counterexample: a body whose `min.x` is NaN, vertically aligned
with a unit box at the origin.  All four separating comparisons evaluate
to false (the two `x` comparisons because NaN compares false, the two `y`
comparisons because the spans overlap), so the overlap test returns true,
refuting the claim that a NaN-positioned body never overlaps anything. -/
theorem c10_counterexample :
    isCollidingJs ⟨⟨.nan, .fin 0⟩, .fin 1, .fin 1⟩
      ⟨⟨.fin 0, .fin 0⟩, .fin 1, .fin 1⟩ = true := by
  norm_num [isCollidingJs, JsAABB.left, JsAABB.right, JsAABB.top, JsAABB.bottom,
    ExtQ.add, ExtQ.lt, ExtQ.gt]

/-- C10 (amended): NaN coordinates poison the overlap test towards `true`,
not `false`: a body with NaN in both coordinates makes every separating
comparison false and therefore overlaps every AABB; the test is a total
function (no exception) either way. -/
theorem c10_nan_overlaps_everything (w h : ExtQ) (b2 : JsAABB) :
    isCollidingJs ⟨⟨.nan, .nan⟩, w, h⟩ b2 = true := by
  simp only [isCollidingJs, JsAABB.left, JsAABB.right, JsAABB.top, JsAABB.bottom,
    ExtQ.gt, ExtQ.nan_add_eq_nan, ExtQ.lt_nan_eq_false, ExtQ.nan_lt_eq_false,
    Bool.or_self, Bool.or_false, Bool.false_or]
  rfl

/-- C6 (spec-modelled): Symbolic bodies are non-physical — the contact
list produced by detection is independent of the symbolic collection, a
detect-plus-resolve cycle against only symbolic bodies leaves every
dynamic body (position and velocity) unchanged while only collecting the
trigger callbacks, and registration places a created body into exactly the
one live-body collection matching its classification. -/
theorem c6_symbolic_nonphysical :
    (∀ w : SpecWorld,
      (specDetect w).1 = (specDetect { w with symbolicBodies := [] }).1) ∧
    (∀ (dyns : List TriggeredDynamic) (syms : List SymbolicBody),
      specDetectResolve ⟨dyns, [], syms⟩ = dyns.map TriggeredDynamic.dyn) ∧
    (∀ (w : SpecWorld) (d : TriggeredDynamic),
      registerBody w (.dyn d) =
        { w with dynamicBodies := w.dynamicBodies ++ [d] }) ∧
    (∀ (w : SpecWorld) (s : StaticBody),
      registerBody w (.stat s) =
        { w with staticBodies := w.staticBodies ++ [s] }) ∧
    (∀ (w : SpecWorld) (s : SymbolicBody),
      registerBody w (.sym s) =
        { w with symbolicBodies := w.symbolicBodies ++ [s] }) := by
  refine ⟨fun w => rfl, fun dyns syms => ?_, fun w d => rfl, fun w s => rfl,
    fun w s => rfl⟩
  have hd : discoverContacts (dyns.map TriggeredDynamic.dyn) [] = [] := by
    simp [discoverContacts]
  simp [specDetectResolve, specDetect, checkAllCollisions, hd, resolveAllCollisions]

/-! The comparator ordering on contacts is transitive and total, as the
stable-sort lemmas require. -/

theorem contactLE_trans (a b c : Contact) (hab : contactLE a b) (hbc : contactLE b c) :
    contactLE a c := by
  simp only [contactLE, decide_eq_true_eq] at *
  exact le_trans hab hbc

theorem contactLE_total (a b : Contact) : contactLE a b || contactLE b a := by
  simp only [contactLE, Bool.or_eq_true, decide_eq_true_eq]
  exact le_total _ _

/-- C4: `checkAllCollisions` leaves the contact list sorted by
`overlapArea` in ascending order; the output is a permutation of the
discovered contacts; ties are broken stably (any comparator-sorted
sublist of the discovery list, in particular any tied pair in discovery
order, survives as a sublist of the sorted output); and the three
manufactured static bodies with overlap areas 10, 50, 5 against one
dynamic body yield contacts ordered [5, 10, 50]. -/
theorem c4_contacts_sorted :
    (∀ (dyns : List DynamicBody) (stats : List StaticBody),
      (checkAllCollisions dyns stats).Pairwise
        (fun a b => a.overlapArea ≤ b.overlapArea) ∧
      (checkAllCollisions dyns stats).Perm (discoverContacts dyns stats)) ∧
    (∀ (dyns : List DynamicBody) (stats : List StaticBody) (c : List Contact),
      c.Pairwise (fun a b => a.overlapArea ≤ b.overlapArea) →
      c.Sublist (discoverContacts dyns stats) →
      c.Sublist (checkAllCollisions dyns stats)) ∧
    (checkAllCollisions [c4Dyn] [c4Stat1, c4Stat2, c4Stat3]).map
      Contact.overlapArea = [5, 10, 50] := by
  refine ⟨fun dyns stats => ⟨?_, ?_⟩, fun dyns stats c hc hsub => ?_, ?_⟩
  · have h := @List.sorted_mergeSort _ contactLE
      (fun a b c => contactLE_trans a b c) contactLE_total (discoverContacts dyns stats)
    simp only [checkAllCollisions]
    exact h.imp fun hab => by
      simpa only [contactLE, decide_eq_true_eq] using hab
  · simp only [checkAllCollisions]
    exact List.mergeSort_perm _ _
  · simp only [checkAllCollisions]
    exact List.sublist_mergeSort (fun a b c => contactLE_trans a b c) contactLE_total
      (hc.imp fun hab => by
        simp only [contactLE, decide_eq_true_eq]; exact hab) hsub
  · norm_num [checkAllCollisions, discoverContacts, isColliding,
      calculateCollisionManifold, AABB.left, AABB.right, AABB.top, AABB.bottom,
      AABB.mid, List.enum, List.enumFrom, List.filterMap_cons, List.mergeSort,
      List.merge, List.splitInTwo, List.splitAt, List.splitAt.go, contactLE,
      c4Dyn, c4Stat1, c4Stat2, c4Stat3]

/-- C4 witness: two static bodies with the same overlap area 10 against
one dynamic body keep their discovery order in the sorted contact list
(the tied pair, as a sorted sublist of the discovery list, survives the
sort). -/
theorem c4_witness :
    [(⟨0, 0, 10⟩ : Contact), ⟨0, 1, 10⟩].Sublist
      (checkAllCollisions [c4Dyn] [c4TieStatA, c4TieStatB]) := by
  have he : discoverContacts [c4Dyn] [c4TieStatA, c4TieStatB] =
      [(⟨0, 0, 10⟩ : Contact), ⟨0, 1, 10⟩] := by
    norm_num [discoverContacts, isColliding, calculateCollisionManifold,
      AABB.left, AABB.right, AABB.top, AABB.bottom, AABB.mid,
      List.enum, List.enumFrom, List.filterMap_cons, c4Dyn, c4TieStatA, c4TieStatB]
  refine c4_contacts_sorted.2.1 [c4Dyn] [c4TieStatA, c4TieStatB]
    [⟨0, 0, 10⟩, ⟨0, 1, 10⟩] ?_ ?_
  · simp [List.pairwise_cons]
  · rw [he]

/-- The second component of an `enum` entry is a member of the underlying
list. -/
theorem snd_mem_of_mem_enum {α : Type} {l : List α} {x : ℕ × α}
    (h : x ∈ l.enum) : x.2 ∈ l := by
  have hm : x.2 ∈ (l.enum).map Prod.snd := List.mem_map_of_mem Prod.snd h
  rwa [List.enum, List.enumFrom_map_snd] at hm

/-- C3 counterexample: a dynamic body marked `grounded = true` from a prior
step, with no static body overlapping it, still has `grounded = true`
after a `checkAllCollisions` plus `resolveAllCollisions` cycle — the
detection pass of this engine variant never writes the `grounded` flag, so
the claimed reset to `false` does not happen. -/
theorem c3_counterexample :
    (resolveAllCollisions (checkAllCollisions [c3Dyn] []) [c3Dyn] []).map
      DynamicBody.grounded = [true] := by
  have hd : discoverContacts [c3Dyn] [] = [] := by
    simp [discoverContacts]
  simp [checkAllCollisions, hd, resolveAllCollisions]
  rfl

/-- C3 (amended): `checkAllCollisions` does not touch the grounded flag:
a detect-plus-resolve cycle in which no dynamic body overlaps any static
body leaves every dynamic body completely unchanged (grounded included).
The flag is instead reassigned in the epilogue of `Physics.step`, which
sets `grounded` to whether `vy == 0`. -/
theorem c3_grounded_not_reset_by_detect (dyns : List DynamicBody)
    (stats : List StaticBody)
    (hno : ∀ d ∈ dyns, ∀ s ∈ stats, isColliding d.body s.body = false) :
    resolveAllCollisions (checkAllCollisions dyns stats) dyns stats = dyns ∧
    (∀ (alpha : ℚ) (b : DynamicBody),
      (postLoopUpdate alpha b).grounded = true ↔ b.vy = 0) := by
  constructor
  · have hd : discoverContacts dyns stats = [] := by
      simp only [discoverContacts, List.flatMap_eq_nil_iff]
      intro di hdi
      simp only [List.filterMap_eq_nil_iff]
      intro sj hsj
      rw [hno di.2 (snd_mem_of_mem_enum hdi) sj.2 (snd_mem_of_mem_enum hsj)]
      simp
    simp [checkAllCollisions, hd, resolveAllCollisions]
  · intro alpha b
    simp [postLoopUpdate]

/-- C3 witness: a grounded dynamic body and one far-away static body:
the detect-plus-resolve cycle returns the body list unchanged, and the
step epilogue maps a body's grounded flag to whether its `vy` is zero. -/
theorem c3_witness :
    resolveAllCollisions (checkAllCollisions [c3wDyn] [c3Stat]) [c3wDyn] [c3Stat] =
      [c3wDyn] ∧
    (∀ (alpha : ℚ) (b : DynamicBody),
      (postLoopUpdate alpha b).grounded = true ↔ b.vy = 0) :=
  c3_grounded_not_reset_by_detect [c3wDyn] [c3Stat]
    (by
      intro d hd s hs
      simp only [List.mem_singleton] at hd hs
      subst hd; subst hs
      norm_num [isColliding, AABB.left, AABB.right, AABB.top, AABB.bottom,
        c3wDyn, c3Stat])

/-- C2 counterexample: a straightforward top collision (snapshot above the
floor, horizontal spans overlapping).  `resolveCollision` of this engine
variant moves the body up and zeroes `vy` but does NOT set
`grounded = true` in the top-collision branch: the flag stays at its prior
value `false`, refuting the claim that `resolveCollision` sets
`D.grounded = true` on a top collision. -/
theorem c2_counterexample :
    (resolveCollision c2Dyn c2Stat).vy = 0 ∧
    (resolveCollision c2Dyn c2Stat).grounded = false := by
  norm_num [resolveCollision, calculateCollisionManifold, AABB.left, AABB.right,
    AABB.top, AABB.bottom, AABB.mid, AABB.withY, AABB.withX, c2Dyn, c2Stat]

/-- C2 (amended): on a top collision (snapshot `P` horizontally overlaps
S's span and `P.bottom ≤ S.top`) `resolveCollision` moves D up by the
penetration's y component (`D.y -= O.y`) and sets `D.vy = 0`, leaving
`x`, `vx` and — unlike the claim — the `grounded` flag unchanged;
`grounded = true` is then established by the epilogue of `Physics.step`,
which marks every body with `vy == 0` as grounded, so a body coming to
rest on a floor still ends the step with `vy == 0` and
`grounded == true`. -/
theorem c2_top_resolution (d : DynamicBody) (s : StaticBody)
    (hW : d.last.right > s.body.left ∧ d.last.left < s.body.right)
    (hTop : d.last.bottom ≤ s.body.top) :
    (resolveCollision d s).vy = 0 ∧
    (resolveCollision d s).body.min.y =
      d.body.min.y - (calculateCollisionManifold d.body s.body).y ∧
    (resolveCollision d s).body.min.x = d.body.min.x ∧
    (resolveCollision d s).vx = d.vx ∧
    (resolveCollision d s).grounded = d.grounded ∧
    (∀ alpha : ℚ, (postLoopUpdate alpha (resolveCollision d s)).grounded = true) := by
  have hcond : (d.last.right > s.body.left ∧ d.last.left < s.body.right) ∧
      d.last.bottom ≤ s.body.top := ⟨hW, hTop⟩
  have hbranch : resolveCollision d s =
      { d with
        body := d.body.withY
          (d.body.min.y - (calculateCollisionManifold d.body s.body).y),
        vy := 0 } := by
    simp only [resolveCollision]
    rw [if_pos hcond]
  rw [hbranch]
  exact ⟨rfl, rfl, rfl, rfl, rfl, fun alpha => by simp [postLoopUpdate]⟩

/-- C2 witness: the top-collision resolution applied to the concrete
falling body `c2Dyn` over the floor `c2Stat`. -/
theorem c2_witness :
    (resolveCollision c2Dyn c2Stat).vy = 0 ∧
    (resolveCollision c2Dyn c2Stat).body.min.y =
      c2Dyn.body.min.y - (calculateCollisionManifold c2Dyn.body c2Stat.body).y ∧
    (resolveCollision c2Dyn c2Stat).body.min.x = c2Dyn.body.min.x ∧
    (resolveCollision c2Dyn c2Stat).vx = c2Dyn.vx ∧
    (resolveCollision c2Dyn c2Stat).grounded = c2Dyn.grounded ∧
    (∀ alpha : ℚ, (postLoopUpdate alpha (resolveCollision c2Dyn c2Stat)).grounded = true) :=
  c2_top_resolution c2Dyn c2Stat
    (by norm_num [c2Dyn, c2Stat, AABB.left, AABB.right])
    (by norm_num [c2Dyn, c2Stat, AABB.top, AABB.bottom])

/-- The overlap test in inequality form: the pair collides exactly when no
separating comparison holds (touching edges included). -/
theorem isColliding_iff (b1 b2 : AABB) :
    isColliding b1 b2 = true ↔
      b2.left ≤ b1.right ∧ b1.left ≤ b2.right ∧ b1.top ≤ b2.bottom ∧
        b2.top ≤ b1.bottom := by
  unfold isColliding
  by_cases hc : b1.right < b2.left ∨ b1.left > b2.right ∨ b1.top > b2.bottom ∨
      b1.bottom < b2.top
  · rw [if_pos hc]
    simp only [Bool.false_eq_true, false_iff]
    rintro ⟨h1, h2, h3, h4⟩
    rcases hc with h | h | h | h <;> linarith
  · rw [if_neg hc]
    push_neg at hc
    simp only [true_iff]
    exact ⟨hc.1, hc.2.1, hc.2.2.1, hc.2.2.2⟩

/-- Penetration depth along y when `b1`'s midpoint is at or above `b2`'s
and the spans touch. -/
theorem manifold_y_above (b1 b2 : AABB) (hMid : b1.mid.y ≤ b2.mid.y)
    (hTouch : b2.top ≤ b1.bottom) :
    (calculateCollisionManifold b1 b2).y =
      (b1.height + b2.height) / 2 - (b2.mid.y - b1.mid.y) := by
  simp only [calculateCollisionManifold, AABB.mid, AABB.top, AABB.bottom] at *
  rw [show |b2.min.y + b2.height / 2 - (b1.min.y + b1.height / 2)| =
      b2.min.y + b2.height / 2 - (b1.min.y + b1.height / 2) from
    abs_of_nonneg (by linarith)]
  rw [abs_of_nonpos (by linarith)]
  ring

/-- Penetration depth along y when `b1`'s midpoint is at or below `b2`'s
and the spans touch. -/
theorem manifold_y_below (b1 b2 : AABB) (hMid : b2.mid.y ≤ b1.mid.y)
    (hTouch : b1.top ≤ b2.bottom) :
    (calculateCollisionManifold b1 b2).y =
      (b1.height + b2.height) / 2 - (b1.mid.y - b2.mid.y) := by
  simp only [calculateCollisionManifold, AABB.mid, AABB.top, AABB.bottom] at *
  rw [show |b2.min.y + b2.height / 2 - (b1.min.y + b1.height / 2)| =
      -(b2.min.y + b2.height / 2 - (b1.min.y + b1.height / 2)) from
    abs_of_nonpos (by linarith)]
  rw [abs_of_nonpos (by linarith)]
  ring

/-- Penetration depth along x when `b1`'s midpoint is at or left of `b2`'s
and the spans touch. -/
theorem manifold_x_left (b1 b2 : AABB) (hMid : b1.mid.x ≤ b2.mid.x)
    (hTouch : b2.left ≤ b1.right) :
    (calculateCollisionManifold b1 b2).x =
      (b1.width + b2.width) / 2 - (b2.mid.x - b1.mid.x) := by
  simp only [calculateCollisionManifold, AABB.mid, AABB.left, AABB.right] at *
  rw [show |b2.min.x + b2.width / 2 - (b1.min.x + b1.width / 2)| =
      b2.min.x + b2.width / 2 - (b1.min.x + b1.width / 2) from
    abs_of_nonneg (by linarith)]
  rw [abs_of_nonpos (by linarith)]
  ring

/-- Penetration depth along x when `b1`'s midpoint is at or right of
`b2`'s and the spans touch. -/
theorem manifold_x_right (b1 b2 : AABB) (hMid : b2.mid.x ≤ b1.mid.x)
    (hTouch : b1.left ≤ b2.right) :
    (calculateCollisionManifold b1 b2).x =
      (b1.width + b2.width) / 2 - (b1.mid.x - b2.mid.x) := by
  simp only [calculateCollisionManifold, AABB.mid, AABB.left, AABB.right] at *
  rw [show |b2.min.x + b2.width / 2 - (b1.min.x + b1.width / 2)| =
      -(b2.min.x + b2.width / 2 - (b1.min.x + b1.width / 2)) from
    abs_of_nonpos (by linarith)]
  rw [abs_of_nonpos (by linarith)]
  ring

/-- C1 counterexample: a plain top collision.  After `resolveCollision`
displaces the falling body upward by the penetration's y component, the
two AABBs are exactly edge-touching, and — because touching edges count as
overlapping — `isColliding` on the resolved pair returns `true`, not
`false` as the claim asserts. -/
theorem c1_counterexample :
    isColliding (resolveCollision c1Dyn c1Stat).body c1Stat.body = true := by
  norm_num [resolveCollision, calculateCollisionManifold, isColliding,
    AABB.left, AABB.right, AABB.top, AABB.bottom, AABB.mid, AABB.withY,
    AABB.withX, c1Dyn, c1Stat]

/-- C1 (amended): in each of the four cardinal cases (with the current
midpoint on the approach side of the static body's midpoint and
non-degenerate dimensions), `resolveCollision` displaces the dynamic body
along the inferred axis so that the two AABBs become exactly edge-touching
on the resolved axis (e.g. `D.bottom = S.top` for a top collision): the
strict penetration is gone, but `overlapping(D.current, S)` returns
`true`, not `false`, because touching edges count as overlapping by the
overlap test's own definition. -/
theorem c1_cardinal_touching (d : DynamicBody) (s : StaticBody)
    (hw1 : 0 ≤ d.body.width) (hh1 : 0 ≤ d.body.height)
    (hw2 : 0 ≤ s.body.width) (hh2 : 0 ≤ s.body.height)
    (hCol : isColliding d.body s.body = true) :
    ((d.last.right > s.body.left ∧ d.last.left < s.body.right) →
      d.last.bottom ≤ s.body.top → d.body.mid.y ≤ s.body.mid.y →
      (resolveCollision d s).body.bottom = s.body.top ∧
      isColliding (resolveCollision d s).body s.body = true) ∧
    ((d.last.right > s.body.left ∧ d.last.left < s.body.right) →
      ¬d.last.bottom ≤ s.body.top → d.last.top ≥ s.body.bottom →
      s.body.mid.y ≤ d.body.mid.y →
      (resolveCollision d s).body.top = s.body.bottom ∧
      isColliding (resolveCollision d s).body s.body = true) ∧
    ((d.last.bottom > s.body.top ∧ d.last.top < s.body.bottom) →
      d.last.right ≤ s.body.left → d.body.mid.x ≤ s.body.mid.x →
      (resolveCollision d s).body.right = s.body.left ∧
      isColliding (resolveCollision d s).body s.body = true) ∧
    ((d.last.bottom > s.body.top ∧ d.last.top < s.body.bottom) →
      s.body.left < d.last.right → d.last.left ≥ s.body.right →
      s.body.mid.x ≤ d.body.mid.x →
      (resolveCollision d s).body.left = s.body.right ∧
      isColliding (resolveCollision d s).body s.body = true) := by
  obtain ⟨hcx1, hcx2, hcy1, hcy2⟩ := (isColliding_iff d.body s.body).1 hCol
  refine ⟨fun hW hTop hMid => ?_, fun hW hNoTop hBot hMid => ?_,
    fun hH hLeft hMid => ?_, fun hH hNoLeft hRight hMid => ?_⟩
  · -- top collision: D.y -= O.y lands D.bottom exactly on S.top
    have hbranch : resolveCollision d s =
        { d with
          body := d.body.withY
            (d.body.min.y - (calculateCollisionManifold d.body s.body).y),
          vy := 0 } := by
      simp only [resolveCollision]
      rw [if_pos ⟨hW, hTop⟩]
    have hOy := manifold_y_above d.body s.body hMid hcy2
    constructor
    · rw [hbranch, hOy]
      simp only [AABB.withY, AABB.bottom, AABB.top, AABB.mid]
      ring
    · rw [isColliding_iff, hbranch, hOy]
      simp only [AABB.withY, AABB.left, AABB.right, AABB.top, AABB.bottom,
        AABB.mid] at *
      refine ⟨by linarith, by linarith, by linarith, by linarith⟩
  · -- bottom collision: D.y += O.y lands D.top exactly on S.bottom
    have hbranch : resolveCollision d s =
        { d with
          body := d.body.withY
            (d.body.min.y + (calculateCollisionManifold d.body s.body).y),
          vy := 0 } := by
      simp only [resolveCollision]
      rw [if_neg (fun hc => hNoTop hc.2), if_pos ⟨hW, hBot⟩]
    have hOy := manifold_y_below d.body s.body hMid hcy1
    constructor
    · rw [hbranch, hOy]
      simp only [AABB.withY, AABB.bottom, AABB.top, AABB.mid]
      ring
    · rw [isColliding_iff, hbranch, hOy]
      simp only [AABB.withY, AABB.left, AABB.right, AABB.top, AABB.bottom,
        AABB.mid] at *
      refine ⟨by linarith, by linarith, by linarith, by linarith⟩
  · -- left collision: D.x -= O.x lands D.right exactly on S.left
    have hnW : ¬(d.last.right > s.body.left ∧ d.last.left < s.body.right) :=
      fun hc => absurd hc.1 (not_lt.2 hLeft)
    have hbranch : resolveCollision d s =
        { d with
          body := d.body.withX
            (d.body.min.x - (calculateCollisionManifold d.body s.body).x),
          vx := 0 } := by
      simp only [resolveCollision]
      rw [if_neg (fun hc => hnW hc.1), if_neg (fun hc => hnW hc.1),
        if_pos ⟨hH, hLeft⟩]
    have hOx := manifold_x_left d.body s.body hMid hcx1
    constructor
    · rw [hbranch, hOx]
      simp only [AABB.withX, AABB.right, AABB.left, AABB.mid]
      ring
    · rw [isColliding_iff, hbranch, hOx]
      simp only [AABB.withX, AABB.left, AABB.right, AABB.top, AABB.bottom,
        AABB.mid] at *
      refine ⟨by linarith, by linarith, by linarith, by linarith⟩
  · -- right collision: D.x += O.x lands D.left exactly on S.right
    have hnW : ¬(d.last.right > s.body.left ∧ d.last.left < s.body.right) :=
      fun hc => absurd hc.2 (not_lt.2 hRight)
    have hbranch : resolveCollision d s =
        { d with
          body := d.body.withX
            (d.body.min.x + (calculateCollisionManifold d.body s.body).x),
          vx := 0 } := by
      simp only [resolveCollision]
      rw [if_neg (fun hc => hnW hc.1), if_neg (fun hc => hnW hc.1),
        if_neg (fun hc => absurd hc.2 (not_le.2 hNoLeft)),
        if_pos ⟨hH, hRight⟩]
    have hOx := manifold_x_right d.body s.body hMid hcx2
    constructor
    · rw [hbranch, hOx]
      simp only [AABB.withX, AABB.right, AABB.left, AABB.mid]
      ring
    · rw [isColliding_iff, hbranch, hOx]
      simp only [AABB.withX, AABB.left, AABB.right, AABB.top, AABB.bottom,
        AABB.mid] at *
      refine ⟨by linarith, by linarith, by linarith, by linarith⟩

/-- C1 witness: the top-collision case at the concrete falling body
`c1Dyn` over the floor `c1Stat` — after resolution the AABBs are exactly
edge-touching and the overlap test still reports a collision. -/
theorem c1_witness :
    (resolveCollision c1Dyn c1Stat).body.bottom = c1Stat.body.top ∧
    isColliding (resolveCollision c1Dyn c1Stat).body c1Stat.body = true :=
  (c1_cardinal_touching c1Dyn c1Stat
      (by norm_num [c1Dyn]) (by norm_num [c1Dyn])
      (by norm_num [c1Stat]) (by norm_num [c1Stat])
      (by norm_num [isColliding, AABB.left, AABB.right, AABB.top, AABB.bottom,
        c1Dyn, c1Stat])).1
    (by norm_num [c1Dyn, c1Stat, AABB.left, AABB.right])
    (by norm_num [c1Dyn, c1Stat, AABB.top, AABB.bottom])
    (by norm_num [c1Dyn, c1Stat, AABB.mid])

/-- `Vector2.slope` is invariant under translating both points by the same
offset. -/
theorem slope_shift (a b t : Vector2) :
    Vector2.slope ⟨a.x + t.x, a.y + t.y⟩ ⟨b.x + t.x, b.y + t.y⟩ =
      Vector2.slope a b := by
  simp only [Vector2.slope, gt_iff_lt, add_lt_add_iff_right]
  by_cases h : a.x < b.x
  · rw [if_pos h, if_pos h]
    congr 1 <;> ring
  · rw [if_neg h, if_neg h]
    congr 1 <;> ring

/-- The slope between the current and snapshot midpoints equals the slope
between any pair of matching corner vertices, provided the two AABBs have
the same dimensions (which `updateCache` preserves): two matching corners
are the two midpoints translated by the same offset. -/
theorem slope_mid_corner (d : DynamicBody) (hw : d.last.width = d.body.width)
    (hh : d.last.height = d.body.height) (ex ey : ℚ) :
    Vector2.slope d.body.mid d.last.mid =
      Vector2.slope
        ⟨d.body.min.x + ex * d.body.width, d.body.min.y + ey * d.body.height⟩
        ⟨d.last.min.x + ex * d.last.width, d.last.min.y + ey * d.last.height⟩ := by
  have e := slope_shift
    ⟨d.body.min.x + ex * d.body.width, d.body.min.y + ey * d.body.height⟩
    ⟨d.last.min.x + ex * d.last.width, d.last.min.y + ey * d.last.height⟩
    ⟨(1 / 2 - ex) * d.body.width, (1 / 2 - ey) * d.body.height⟩
  rw [← e]
  congr 1
  · simp only [AABB.mid, Vector2.mk.injEq]
    constructor <;> ring
  · simp only [AABB.mid, Vector2.mk.injEq]
    rw [hw, hh]
    constructor <;> ring

/-- C5 counterexample: a contact that reaches the corner-case branch with
the snapshot midpoint vertically colinear with the static midpoint (the
snapshot already overlaps the static body, so no cardinal guard fires).
No quadrant branch fires either, so `resolveCollision` applies NO axis
correction at all — zero, not "exactly one" as the claim asserts. -/
theorem c5_counterexample : resolveCollision c5Dyn c5Stat = c5Dyn := by
  norm_num [resolveCollision, calculateCollisionManifold, Vector2.slope,
    jsDivQ, AABB.left, AABB.right, AABB.top, AABB.bottom, AABB.mid,
    AABB.withX, AABB.withY, c5Dyn, c5Stat]

/-- C5 (amended): in the corner case, the vertical-vs-horizontal decision
compares the slope of D's positional change this step — computed in the
source between the current and snapshot AABB midpoints, which equals the
slope between the matching corner vertices because the two AABBs share
their dimensions — against the slope from the snapshot's corner vertex to
the opposing corner of S; within each strict quadrant exactly one axis
correction is applied, but when the snapshot midpoint is exactly colinear
with S's midpoint on either axis, no branch fires and no correction is
applied at all. -/
theorem c5_corner_behaviour (d : DynamicBody) (s : StaticBody) :
    (d.last.width = d.body.width → d.last.height = d.body.height →
      (Vector2.slope d.body.mid d.last.mid =
        Vector2.slope ⟨d.body.right, d.body.bottom⟩
          ⟨d.last.right, d.last.bottom⟩) ∧
      (Vector2.slope d.body.mid d.last.mid =
        Vector2.slope ⟨d.body.left, d.body.bottom⟩
          ⟨d.last.left, d.last.bottom⟩) ∧
      (Vector2.slope d.body.mid d.last.mid =
        Vector2.slope ⟨d.body.right, d.body.top⟩
          ⟨d.last.right, d.last.top⟩) ∧
      (Vector2.slope d.body.mid d.last.mid =
        Vector2.slope ⟨d.body.left, d.body.top⟩
          ⟨d.last.left, d.last.top⟩)) ∧
    (¬((d.last.right > s.body.left ∧ d.last.left < s.body.right) ∧
        d.last.bottom ≤ s.body.top) →
      ¬((d.last.right > s.body.left ∧ d.last.left < s.body.right) ∧
        d.last.top ≥ s.body.bottom) →
      ¬((d.last.bottom > s.body.top ∧ d.last.top < s.body.bottom) ∧
        d.last.right ≤ s.body.left) →
      ¬((d.last.bottom > s.body.top ∧ d.last.top < s.body.bottom) ∧
        d.last.left ≥ s.body.right) →
      (d.last.mid.y < s.body.mid.y → d.last.mid.x < s.body.mid.x →
        (resolveCollision d s =
          { d with
            body := d.body.withY
              (d.body.min.y - (calculateCollisionManifold d.body s.body).y),
            grounded := true } ∨
         resolveCollision d s =
          { d with
            body := d.body.withX
              (d.body.min.x - (calculateCollisionManifold d.body s.body).x) })) ∧
      (d.last.mid.y < s.body.mid.y → d.last.mid.x > s.body.mid.x →
        (resolveCollision d s =
          { d with
            body := d.body.withY
              (d.body.min.y - (calculateCollisionManifold d.body s.body).y),
            grounded := true } ∨
         resolveCollision d s =
          { d with
            body := d.body.withX
              (d.body.min.x + (calculateCollisionManifold d.body s.body).x) })) ∧
      (d.last.mid.y > s.body.mid.y → d.last.mid.x < s.body.mid.x →
        (resolveCollision d s =
          { d with
            body := d.body.withY
              (d.body.min.y + (calculateCollisionManifold d.body s.body).y) } ∨
         resolveCollision d s =
          { d with
            body := d.body.withX
              (d.body.min.x - (calculateCollisionManifold d.body s.body).x) })) ∧
      (d.last.mid.y > s.body.mid.y → d.last.mid.x > s.body.mid.x →
        (resolveCollision d s =
          { d with
            body := d.body.withY
              (d.body.min.y + (calculateCollisionManifold d.body s.body).y) } ∨
         resolveCollision d s =
          { d with
            body := d.body.withX
              (d.body.min.x + (calculateCollisionManifold d.body s.body).x) })) ∧
      ((d.last.mid.y = s.body.mid.y ∨ d.last.mid.x = s.body.mid.x) →
        resolveCollision d s = d)) := by
  constructor
  · intro hw hh
    refine ⟨?_, ?_, ?_, ?_⟩
    · have e := slope_mid_corner d hw hh 1 1
      simpa only [one_mul, AABB.right, AABB.bottom] using e
    · have e := slope_mid_corner d hw hh 0 1
      simpa only [one_mul, zero_mul, add_zero, AABB.left, AABB.bottom] using e
    · have e := slope_mid_corner d hw hh 1 0
      simpa only [one_mul, zero_mul, add_zero, AABB.right, AABB.top] using e
    · have e := slope_mid_corner d hw hh 0 0
      simpa only [zero_mul, add_zero, AABB.left, AABB.top] using e
  · intro hn1 hn2 hn3 hn4
    refine ⟨fun hy hx => ?_, fun hy hx => ?_, fun hy hx => ?_, fun hy hx => ?_,
      fun hcol => ?_⟩
    · have hq : resolveCollision d s =
          if (Vector2.slope d.body.mid d.last.mid).gt
              (Vector2.slope ⟨d.last.right, d.last.bottom⟩
                ⟨s.body.left, s.body.top⟩) then
            { d with
              body := d.body.withY
                (d.body.min.y - (calculateCollisionManifold d.body s.body).y),
              grounded := true }
          else
            { d with
              body := d.body.withX
                (d.body.min.x - (calculateCollisionManifold d.body s.body).x) } := by
        simp only [resolveCollision]
        rw [if_neg hn1, if_neg hn2, if_neg hn3, if_neg hn4, if_pos hy, if_pos hx]
      by_cases hslope : (Vector2.slope d.body.mid d.last.mid).gt
          (Vector2.slope ⟨d.last.right, d.last.bottom⟩
            ⟨s.body.left, s.body.top⟩) = true
      · exact Or.inl (by rw [hq, if_pos hslope])
      · exact Or.inr (by rw [hq, if_neg hslope])
    · have hq : resolveCollision d s =
          if (Vector2.slope d.body.mid d.last.mid).gt
              (Vector2.slope ⟨d.last.left, d.last.bottom⟩
                ⟨s.body.right, s.body.top⟩) then
            { d with
              body := d.body.withY
                (d.body.min.y - (calculateCollisionManifold d.body s.body).y),
              grounded := true }
          else
            { d with
              body := d.body.withX
                (d.body.min.x + (calculateCollisionManifold d.body s.body).x) } := by
        simp only [resolveCollision]
        rw [if_neg hn1, if_neg hn2, if_neg hn3, if_neg hn4, if_pos hy,
          if_neg (lt_asymm hx), if_pos hx]
      by_cases hslope : (Vector2.slope d.body.mid d.last.mid).gt
          (Vector2.slope ⟨d.last.left, d.last.bottom⟩
            ⟨s.body.right, s.body.top⟩) = true
      · exact Or.inl (by rw [hq, if_pos hslope])
      · exact Or.inr (by rw [hq, if_neg hslope])
    · have hq : resolveCollision d s =
          if (Vector2.slope d.body.mid d.last.mid).lt
              (Vector2.slope ⟨d.last.right, d.last.top⟩
                ⟨s.body.left, s.body.bottom⟩) then
            { d with
              body := d.body.withY
                (d.body.min.y + (calculateCollisionManifold d.body s.body).y) }
          else
            { d with
              body := d.body.withX
                (d.body.min.x - (calculateCollisionManifold d.body s.body).x) } := by
        simp only [resolveCollision]
        rw [if_neg hn1, if_neg hn2, if_neg hn3, if_neg hn4,
          if_neg (lt_asymm hy), if_pos hy, if_pos hx]
      by_cases hslope : (Vector2.slope d.body.mid d.last.mid).lt
          (Vector2.slope ⟨d.last.right, d.last.top⟩
            ⟨s.body.left, s.body.bottom⟩) = true
      · exact Or.inl (by rw [hq, if_pos hslope])
      · exact Or.inr (by rw [hq, if_neg hslope])
    · have hq : resolveCollision d s =
          if (Vector2.slope d.body.mid d.last.mid).lt
              (Vector2.slope ⟨d.last.left, d.last.top⟩
                ⟨s.body.right, s.body.bottom⟩) then
            { d with
              body := d.body.withY
                (d.body.min.y + (calculateCollisionManifold d.body s.body).y) }
          else
            { d with
              body := d.body.withX
                (d.body.min.x + (calculateCollisionManifold d.body s.body).x) } := by
        simp only [resolveCollision]
        rw [if_neg hn1, if_neg hn2, if_neg hn3, if_neg hn4,
          if_neg (lt_asymm hy), if_pos hy, if_neg (lt_asymm hx), if_pos hx]
      by_cases hslope : (Vector2.slope d.body.mid d.last.mid).lt
          (Vector2.slope ⟨d.last.left, d.last.top⟩
            ⟨s.body.right, s.body.bottom⟩) = true
      · exact Or.inl (by rw [hq, if_pos hslope])
      · exact Or.inr (by rw [hq, if_neg hslope])
    · simp only [resolveCollision]
      rw [if_neg hn1, if_neg hn2, if_neg hn3, if_neg hn4]
      rcases hcol with hy | hx
      · rw [if_neg (by rw [hy]; exact lt_irrefl _),
          if_neg (by rw [hy]; exact lt_irrefl _)]
      · by_cases h1 : d.last.mid.y < s.body.mid.y
        · rw [if_pos h1, if_neg (by rw [hx]; exact lt_irrefl _),
            if_neg (by rw [hx]; exact lt_irrefl _)]
        · rw [if_neg h1]
          by_cases h2 : d.last.mid.y > s.body.mid.y
          · rw [if_pos h2, if_neg (by rw [hx]; exact lt_irrefl _),
              if_neg (by rw [hx]; exact lt_irrefl _)]
          · rw [if_neg h2]

/-- C5 witness: a diagonal approach onto the top-left corner of a box —
the midpoint-based change slope equals the bottom-right corner-vertex
slope, and in the strict top-left quadrant exactly one axis correction is
applied. -/
theorem c5_witness :
    (Vector2.slope c5wDyn.body.mid c5wDyn.last.mid =
      Vector2.slope ⟨c5wDyn.body.right, c5wDyn.body.bottom⟩
        ⟨c5wDyn.last.right, c5wDyn.last.bottom⟩) ∧
    (resolveCollision c5wDyn c5wStat =
      { c5wDyn with
        body := c5wDyn.body.withY
          (c5wDyn.body.min.y -
            (calculateCollisionManifold c5wDyn.body c5wStat.body).y),
        grounded := true } ∨
     resolveCollision c5wDyn c5wStat =
      { c5wDyn with
        body := c5wDyn.body.withX
          (c5wDyn.body.min.x -
            (calculateCollisionManifold c5wDyn.body c5wStat.body).x) }) :=
  ⟨((c5_corner_behaviour c5wDyn c5wStat).1 (by norm_num [c5wDyn])
      (by norm_num [c5wDyn])).1,
   ((c5_corner_behaviour c5wDyn c5wStat).2
      (by norm_num [c5wDyn, c5wStat, AABB.left, AABB.right, AABB.top, AABB.bottom])
      (by norm_num [c5wDyn, c5wStat, AABB.left, AABB.right, AABB.top, AABB.bottom])
      (by norm_num [c5wDyn, c5wStat, AABB.left, AABB.right, AABB.top, AABB.bottom])
      (by norm_num [c5wDyn, c5wStat, AABB.left, AABB.right, AABB.top, AABB.bottom])).1
    (by norm_num [c5wDyn, c5wStat, AABB.mid])
    (by norm_num [c5wDyn, c5wStat, AABB.mid])⟩

/-- The accumulator drain loop runs exactly `⌊acc / dt⌋` whole fixed steps:
it returns the leftover accumulator and the `n`-fold iterate of the
integrate-detect-resolve substep. -/
theorem stepLoop_spec (dt : ℚ) (hdt : 0 < dt) (stats : List StaticBody) :
    ∀ (n : ℕ) (acc : ℚ) (dyns : List DynamicBody), 0 ≤ acc →
      (⌊acc / dt⌋).toNat = n →
      stepLoop dt hdt stats acc dyns =
        (acc - n * dt, (fun ds => substep dt stats ds)^[n] dyns) := by
  intro n
  induction n with
  | zero =>
    intro acc dyns hacc hfl
    have hlt : ¬acc ≥ dt := by
      intro hge
      have h1 : (1 : ℚ) ≤ acc / dt := (one_le_div hdt).2 hge
      have h2 : (1 : ℤ) ≤ ⌊acc / dt⌋ := Int.le_floor.2 (by exact_mod_cast h1)
      omega
    rw [stepLoop, dif_neg hlt]
    simp
  | succ n ih =>
    intro acc dyns hacc hfl
    have hge : acc ≥ dt := by
      by_contra hlt
      push_neg at hlt
      have h1 : acc / dt < 1 := (div_lt_one hdt).2 hlt
      have h0 : (0 : ℚ) ≤ acc / dt := div_nonneg hacc hdt.le
      have hz : ⌊acc / dt⌋ = 0 := Int.floor_eq_zero_iff.2 ⟨h0, h1⟩
      omega
    have hdiv : (acc - dt) / dt = acc / dt - 1 := by
      rw [sub_div, div_self (ne_of_gt hdt)]
    have hfl' : (⌊(acc - dt) / dt⌋).toNat = n := by
      rw [hdiv, Int.floor_sub_one]
      have h2 : (1 : ℤ) ≤ ⌊acc / dt⌋ :=
        Int.le_floor.2 (by exact_mod_cast (one_le_div hdt).2 hge)
      omega
    have hacc' : 0 ≤ acc - dt := by linarith
    rw [stepLoop, dif_pos hge, ih (acc - dt) (substep dt stats dyns) hacc' hfl']
    simp only [Prod.mk.injEq, Function.iterate_succ_apply, and_true]
    push_cast
    ring

/-- Leftover-accumulator bounds and the iterate characterization of the
drain loop, for a nonnegative starting accumulator. -/
theorem stepLoop_bounds (dt : ℚ) (hdt : 0 < dt) (stats : List StaticBody)
    (acc : ℚ) (dyns : List DynamicBody) (hacc : 0 ≤ acc) :
    0 ≤ (stepLoop dt hdt stats acc dyns).1 ∧
    (stepLoop dt hdt stats acc dyns).1 < dt ∧
    (stepLoop dt hdt stats acc dyns).1 =
      acc - (⌊acc / dt⌋).toNat * dt ∧
    (stepLoop dt hdt stats acc dyns).2 =
      (fun ds => substep dt stats ds)^[(⌊acc / dt⌋).toNat] dyns := by
  have hs := stepLoop_spec dt hdt stats (⌊acc / dt⌋).toNat acc dyns hacc rfl
  have hfl0 : 0 ≤ ⌊acc / dt⌋ := Int.floor_nonneg.2 (div_nonneg hacc hdt.le)
  have htn : (((⌊acc / dt⌋).toNat : ℤ) : ℚ) = ((⌊acc / dt⌋ : ℤ) : ℚ) := by
    exact_mod_cast congrArg (fun z : ℤ => (z : ℚ)) (Int.toNat_of_nonneg hfl0)
  have hnn : 0 ≤ acc - (⌊acc / dt⌋).toNat * dt := by
    have := Int.sub_floor_div_mul_nonneg acc hdt
    have hcast : ((⌊acc / dt⌋).toNat : ℚ) = ((⌊acc / dt⌋ : ℤ) : ℚ) := by
      exact_mod_cast htn
    rw [hcast]
    exact this
  have hlt : acc - (⌊acc / dt⌋).toNat * dt < dt := by
    have := Int.sub_floor_div_mul_lt acc hdt
    have hcast : ((⌊acc / dt⌋).toNat : ℚ) = ((⌊acc / dt⌋ : ℤ) : ℚ) := by
      exact_mod_cast htn
    rw [hcast]
    exact this
  rw [hs]
  exact ⟨hnn, hlt, rfl, rfl⟩

/-- Bodies coming out of the step epilogue all carry the stored alpha. -/
theorem alpha_of_mem_postLoop (a : ℚ) (l : List DynamicBody) (b : DynamicBody)
    (hb : b ∈ l.map (postLoopUpdate a)) : b.alpha = a := by
  obtain ⟨x, -, hx⟩ := List.mem_map.1 hb
  rw [← hx]
  rfl

/-- C7: `Physics.step` with `dt > 0` (and a monotone clock and the
nonnegative-accumulator invariant) clamps the elapsed frame time to at
most `MAX_PHYS_FRAME_TIME = 1/4` s before adding it to the accumulator,
runs the integrate-detect-resolve substep once per whole fixed step,
returns with `0 ≤ accumulator < dt`, and stores
`alpha = accumulator / dt ∈ [0, 1)` on every dynamic body. -/
theorem c7_step_invariants (dt : ℚ) (hdt : 0 < dt) (elapsed : ℚ)
    (st : PhysicsState) (helapsed : 0 ≤ elapsed) (hacc : 0 ≤ st.accumulator) :
    (0 ≤ (Physics.step dt hdt elapsed st).accumulator ∧
      (Physics.step dt hdt elapsed st).accumulator < dt) ∧
    (∀ b ∈ (Physics.step dt hdt elapsed st).dynamicBodies,
      b.alpha = (Physics.step dt hdt elapsed st).accumulator / dt ∧
      0 ≤ b.alpha ∧ b.alpha < 1) ∧
    Physics.step dt hdt elapsed st =
      Physics.step dt hdt (min elapsed MAX_PHYS_FRAME_TIME) st ∧
    (Physics.step dt hdt elapsed st).dynamicBodies =
      ((fun ds => substep dt st.staticBodies ds)^[(⌊(st.accumulator +
            min elapsed MAX_PHYS_FRAME_TIME) / dt⌋).toNat]
          st.dynamicBodies).map
        (postLoopUpdate ((Physics.step dt hdt elapsed st).accumulator / dt)) ∧
    (Physics.step dt hdt elapsed st).staticBodies = st.staticBodies := by
  have hmin : (if elapsed > MAX_PHYS_FRAME_TIME then MAX_PHYS_FRAME_TIME
      else elapsed) = min elapsed MAX_PHYS_FRAME_TIME := by
    by_cases h : elapsed > MAX_PHYS_FRAME_TIME
    · rw [if_pos h, min_eq_right h.le]
    · rw [if_neg h, min_eq_left (not_lt.1 h)]
  have hmin2 : (if min elapsed MAX_PHYS_FRAME_TIME > MAX_PHYS_FRAME_TIME then
      MAX_PHYS_FRAME_TIME else min elapsed MAX_PHYS_FRAME_TIME) =
      min elapsed MAX_PHYS_FRAME_TIME :=
    if_neg (not_lt.2 (min_le_right elapsed MAX_PHYS_FRAME_TIME))
  have hacc0nn : 0 ≤ st.accumulator + min elapsed MAX_PHYS_FRAME_TIME := by
    have h0 : 0 ≤ min elapsed MAX_PHYS_FRAME_TIME :=
      le_min helapsed (by norm_num [MAX_PHYS_FRAME_TIME])
    linarith
  obtain ⟨hb1, hb2, hb3, hb4⟩ := stepLoop_bounds dt hdt st.staticBodies
    (st.accumulator + min elapsed MAX_PHYS_FRAME_TIME) st.dynamicBodies hacc0nn
  have hstep : Physics.step dt hdt elapsed st =
      { dynamicBodies :=
          (stepLoop dt hdt st.staticBodies
              (st.accumulator + min elapsed MAX_PHYS_FRAME_TIME)
              st.dynamicBodies).2.map
            (postLoopUpdate
              ((stepLoop dt hdt st.staticBodies
                  (st.accumulator + min elapsed MAX_PHYS_FRAME_TIME)
                  st.dynamicBodies).1 / dt)),
        staticBodies := st.staticBodies,
        accumulator :=
          (stepLoop dt hdt st.staticBodies
              (st.accumulator + min elapsed MAX_PHYS_FRAME_TIME)
              st.dynamicBodies).1 } := by
    simp only [Physics.step, hmin]
  refine ⟨⟨?_, ?_⟩, ?_, ?_, ?_, ?_⟩
  · rw [hstep]
    exact hb1
  · rw [hstep]
    exact hb2
  · intro b hb
    rw [hstep] at hb
    have hba := alpha_of_mem_postLoop _ _ b hb
    rw [hstep]
    refine ⟨hba, ?_, ?_⟩
    · rw [hba]
      exact div_nonneg hb1 hdt.le
    · rw [hba]
      exact (div_lt_one hdt).2 hb2
  · rw [hstep]
    simp only [Physics.step, hmin2]
  · rw [hstep]
    simp only [hb4, hb3]
  · rw [hstep]

/-- C7 witness: one step with `dt = 1`, elapsed time 2 s (clamped to 1/4)
and an initially empty accumulator over a single freshly made body: the
loop runs zero whole steps, the accumulator ends at `1/4 ∈ [0, 1)` and the
body's alpha equals it. -/
theorem c7_witness :
    (0 ≤ (Physics.step 1 one_pos 2 ⟨[c7Dyn], [], 0⟩).accumulator ∧
      (Physics.step 1 one_pos 2 ⟨[c7Dyn], [], 0⟩).accumulator < 1) ∧
    (∀ b ∈ (Physics.step 1 one_pos 2 ⟨[c7Dyn], [], 0⟩).dynamicBodies,
      b.alpha = (Physics.step 1 one_pos 2 ⟨[c7Dyn], [], 0⟩).accumulator / 1 ∧
      0 ≤ b.alpha ∧ b.alpha < 1) ∧
    Physics.step 1 one_pos 2 ⟨[c7Dyn], [], 0⟩ =
      Physics.step 1 one_pos (min 2 MAX_PHYS_FRAME_TIME) ⟨[c7Dyn], [], 0⟩ ∧
    (Physics.step 1 one_pos 2 ⟨[c7Dyn], [], 0⟩).dynamicBodies =
      ((fun ds => substep 1 ([] : List StaticBody) ds)^[(⌊((0 : ℚ) +
            min 2 MAX_PHYS_FRAME_TIME) / 1⌋).toNat]
          [c7Dyn]).map
        (postLoopUpdate
          ((Physics.step 1 one_pos 2 ⟨[c7Dyn], [], 0⟩).accumulator / 1)) ∧
    (Physics.step 1 one_pos 2 ⟨[c7Dyn], [], 0⟩).staticBodies = [] :=
  c7_step_invariants 1 one_pos 2 ⟨[c7Dyn], [], 0⟩ (by norm_num) (le_refl 0)

end Engine
